import Mathlib

/-!
Verification of the Samousse-rs core: the Twitch EventSub websocket client
(subscription reconciliation and the reconnection loop, src/twitch/websocket.rs)
and the Discord rename reconciler (src/discord/twitch.rs, src/discord/bot.rs),
shallowly embedded as executable Lean definitions.
-/

/-! ## Subscription reconciliation (WebsocketClient::process_welcome_message) -/

/-- Event kinds the client subscribes to (EventType::StreamOnline / StreamOffline).
The source matches on the full twitch_api EventType; only these two are ever put
into event_sub_id, and the create loop panics on any other kind, which is
unreachable for lists built by the algorithm. -/
inductive EventType where
  | streamOnline
  | streamOffline
deriving DecidableEq, Repr

/-- Local subscription bookkeeping entry (struct Subscription in websocket.rs). -/
structure Subscription where
  user_id : String
  event_id : Option String
  event_type : EventType
deriving DecidableEq, Repr

/-- The (event kind, broadcaster id) key of a local entry. -/
def pairOfSub (s : Subscription) : EventType × String :=
  (s.event_type, s.user_id)

/-- The event_sub_id list right after the clear-and-refill loops: for each
configured user id, one StreamOnline and one StreamOffline entry, no remote id. -/
def initial_event_sub_id (user_ids : List String) : List Subscription :=
  user_ids.foldr
    (fun u acc =>
      { user_id := u, event_id := none, event_type := .streamOnline } ::
      { user_id := u, event_id := none, event_type := .streamOffline } :: acc)
    []

/-- The desired set of (event kind, broadcaster id) tuples. -/
def desiredPairs (user_ids : List String) : List (EventType × String) :=
  (initial_event_sub_id user_ids).map pairOfSub

/-- Kinds a subscription listed by the remote API can carry (the twitch_api
EventType of the deserialized subscription): the two stream kinds this client
manages, or any other event kind. -/
inductive RemoteEventType where
  | streamOnline
  | streamOffline
  | otherKind (name : String)
deriving DecidableEq, Repr

/-- Equality test of a local entry kind against a remote subscription kind,
the first conjunct of the find closure (f.event_type == sub.type_). -/
def matchesKind : EventType → RemoteEventType → Bool
  | .streamOnline, .streamOnline => true
  | .streamOffline, .streamOffline => true
  | _, _ => false

/-- String-keyed association lookup: the get call on a JSON object. -/
def lookupS : List (String × String) → String → Option String
  | [], _ => none
  | (k, v) :: rest, key => if k = key then some v else lookupS rest key

/-- A subscription as listed by the remote API (EventSubSubscription): its
opaque remote id, its event kind, and its condition, a JSON object whose
values are JSON strings, as the event API delivers them; string values holding
characters that JSON serialization would escape are not modelled. -/
structure RemoteSub where
  id : String
  type_ : RemoteEventType
  condition : List (String × String)
deriving DecidableEq, Repr

/-- The to_string call on a JSON string value: its JSON serialization, the
surrounding quote characters included. -/
def jsonValueToString (s : String) : String :=
  "\"" ++ s ++ "\""

/-- Outcome of the find-and-mark step for one remote subscription. -/
inductive MarkResult where
  | marked (ls : List Subscription)
  | noMatch
  | panicked
deriving Repr

/-- One step of the match-or-delete loop over the fetched list: find the first
event_sub_id entry f with f.event_type == sub.type_ whose user id equals
UserId::new of condition.get of broadcaster_user_id, unwrapped and rendered
with to_string — that is, the JSON serialization of the condition value,
quotes included — and store the remote id there. The conjunction
short-circuits, so the unwrap runs only against entries of a matching kind
and panics when the condition has no broadcaster_user_id key; when no entry
matches, the source deletes the remote subscription. -/
def markFirst (r : RemoteSub) : List Subscription → MarkResult
  | [] => .noMatch
  | s :: rest =>
    if matchesKind s.event_type r.type_ then
      match lookupS r.condition "broadcaster_user_id" with
      | none => .panicked
      | some bid =>
        if s.user_id = jsonValueToString bid then
          .marked ({ s with event_id := some r.id } :: rest)
        else
          match markFirst r rest with
          | .marked ls => .marked (s :: ls)
          | out => out
    else
      match markFirst r rest with
      | .marked ls => .marked (s :: ls)
      | out => out

/-- Result of the loop over the fetched remote subscription list: the final
local list, the ids passed to delete_eventsub_subscription and the remote
subs that were kept — or a panic aborting the pass. -/
inductive ReconOutcome where
  | ok (finalSubs : List Subscription) (deletes : List String)
      (kept : List RemoteSub)
  | panicked
deriving Repr

def reconcile_remote : List RemoteSub → List Subscription → ReconOutcome
  | [], ls => .ok ls [] []
  | r :: rest, ls =>
    match markFirst r ls with
    | .marked ls' =>
      match reconcile_remote rest ls' with
      | .ok fin dels kept => .ok fin dels (r :: kept)
      | .panicked => .panicked
    | .noMatch =>
      match reconcile_remote rest ls with
      | .ok fin dels kept => .ok fin (r.id :: dels) kept
      | .panicked => .panicked
    | .panicked => .panicked

/-- The (event kind, broadcaster id) tuples of the local entries that still
have no remote id; the final loop of the source issues one create call per
such entry. -/
def unmatchedPairs (ls : List Subscription) : List (EventType × String) :=
  (ls.filter (fun s => s.event_id.isNone)).map pairOfSub

/-- Result of one reconciliation pass. -/
structure ReconResult where
  finalSubs : List Subscription
  deletes : List String
  kept : List RemoteSub
  creates : List (EventType × String)
deriving DecidableEq, Repr

/-- A reconciliation pass either completes or panics at the condition unwrap. -/
inductive ReconPassResult where
  | ok (r : ReconResult)
  | panicked
deriving DecidableEq, Repr

/-- The reconciliation part of process_welcome_message: rebuild event_sub_id
from the configured user ids, walk the fetched remote list marking or deleting
each entry, then create every still-unmarked desired tuple. Session id and
reconnect-url capture precede this in the source and do not affect it; create
and delete calls are modelled as succeeding (a failing call aborts the pass). -/
def process_welcome_message (user_ids : List String) (subs : List RemoteSub) :
    ReconPassResult :=
  match reconcile_remote subs (initial_event_sub_id user_ids) with
  | .ok fin dels kept =>
    .ok { finalSubs := fin, deletes := dels, kept := kept,
          creates := unmatchedPairs fin }
  | .panicked => .panicked

/-- Claim C1 (the code contradicts it): a remote subscription whose
(eventKind, streamUserId) pair exactly matches a desired tuple is nonetheless
deleted, and the matching desired tuple created. Concretely, with one
configured user id 11 and one remote stream-online subscription for
broadcaster 11, the pass deletes that subscription and creates both desired
tuples: the find closure compares the configured id against the JSON
serialization of the condition value, quotes included, so it never succeeds
and the mark step is dead code. -/
theorem C1_matching_remote_deleted_and_recreated :
    (EventType.streamOnline, "11") ∈ desiredPairs ["11"]
    ∧ process_welcome_message ["11"]
        [{ id := "a", type_ := .streamOnline,
           condition := [("broadcaster_user_id", "11")] }]
      = .ok { finalSubs := [{ user_id := "11", event_id := none,
                              event_type := .streamOnline },
                            { user_id := "11", event_id := none,
                              event_type := .streamOffline }],
              deletes := ["a"], kept := [],
              creates := [(.streamOnline, "11"), (.streamOffline, "11")] } := by
  exact ⟨by decide, by decide⟩

/-! ## The websocket feed loop (WebsocketClient::run)

The loop repeatedly selects on the websocket stream. Each iteration observes one
of: a received message (whose processing by process_message either succeeds or
returns an error that the try operator propagates), a
ResetWithoutClosingHandshake protocol error (the one error the loop handles
inline, by reconnecting, whose connect call itself may fail), any other stream
error, or the select else branch taken when the stream is exhausted. A run of
the loop is modelled over the finite list of outcomes observed so far. -/

inductive LoopEvent where
  | message (procResult : Except String Unit)
  | resetError (reconnectResult : Except String Unit)
  | otherError (e : String)
  | streamEnd
deriving Repr

inductive LoopAction where
  | processMessage
  | reconnect
  | sleep30
deriving DecidableEq, Repr

/-- Result of the loop over the observed events: still looping with the actions
it performed, or returned out of run with an error and the actions performed
before that. -/
inductive RunResult where
  | looping (actions : List LoopAction)
  | failed (e : String) (actions : List LoopAction)
deriving DecidableEq, Repr

/-- Prefix an action onto a run result. -/
def consAction (a : LoopAction) : RunResult → RunResult
  | .looping acts => .looping (a :: acts)
  | .failed e acts => .failed e (a :: acts)

/-- The body of WebsocketClient::run as a fold over observed stream outcomes:
a ResetWithoutClosingHandshake error reconnects inline and continues (a failed
reconnect propagates); any other stream error propagates out of run through the
try operator; the else branch (exhausted stream) logs, sleeps 30 seconds and
loops again without reconnecting; a received message is processed, and a
processing error propagates out of run. -/
def run_loop : List LoopEvent → RunResult
  | [] => .looping []
  | .message pr :: rest =>
    match pr with
    | .ok _ => consAction .processMessage (run_loop rest)
    | .error e => .failed e []
  | .resetError rc :: rest =>
    match rc with
    | .ok _ => consAction .reconnect (run_loop rest)
    | .error e => .failed e []
  | .otherError e :: _ => .failed e []
  | .streamEnd :: rest => consAction .sleep30 (run_loop rest)

/-- Claim C3 counterexample: a transport failure other than the
reset-without-close condition is not caught by the loop: at the concrete input
where the stream yields one such error, run returns that error, having neither
slept nor reconnected, so the loop does terminate on such a failure. -/
theorem C3_transport_error_terminates_loop :
    run_loop [.otherError "connection reset by peer"]
      = .failed "connection reset by peer" [] := by
  rfl

/-- Claim C3 amended: a transport failure of the feed websocket other than the
reset-without-proper-close condition is propagated by the try operator and
terminates the run loop with that error, with no 30-second delay and no
reconnect; only stream exhaustion (the select else branch) triggers the fixed
30-second sleep, after which the loop continues — without reconnecting. -/
theorem C3_other_transport_failure (e : String) (rest : List LoopEvent) :
    run_loop (.otherError e :: rest) = .failed e []
    ∧ run_loop (.streamEnd :: rest) = consAction .sleep30 (run_loop rest) := by
  exact ⟨rfl, rfl⟩

/-- Claim C4: on the reset-without-closing-handshake protocol error, the loop
reconnects inline (given the connect call succeeds) and continues processing the
remaining events in the same loop, with no 30-second sleep for this event. -/
theorem C4_reset_reconnects_immediately (rest : List LoopEvent) :
    run_loop (.resetError (.ok ()) :: rest)
      = consAction .reconnect (run_loop rest) := by
  rfl

/-! ## The Discord rename reconciler (src/discord/twitch.rs)

Discord snowflake ids (UserId, ChannelId, GuildId) are modelled as naturals.
The HashMaps of DiscordTwitchWatcher are modelled as association lists indexed
by those ids; the serenity cache and the outcome of the HTTP edit_channel call
form an immutable environment. -/

/-- A channel record remembered by the watcher (struct Channel): the name the
channel had before the bot renamed it. -/
structure Channel where
  original_name : String
deriving DecidableEq, Repr

/-- A monitored user (struct User in the discord module). -/
structure User where
  discord_id : Nat
  current_channel_id : Option Nat
  has_been_part_of_voice_state_event : Bool
  twitch_id : Nat
  twitch_is_streaming : Option Bool
deriving DecidableEq, Repr

/-- The shared watcher state (struct DiscordTwitchWatcher); the enabled flag
only gates task startup and the renamed channel topic does not exist in the
version under verification. -/
structure DiscordTwitchWatcher where
  channels : List (Nat × Channel)
  users : List (Nat × User)
  renamed_channel_name : String
  servers : List Nat
deriving DecidableEq, Repr

/-- A cached voice state of a guild member (serenity VoiceState, restricted to
the channel id the source reads). -/
structure VoiceState where
  channel_id : Option Nat
deriving DecidableEq, Repr

/-- A cached guild: its voice states by user id. -/
structure Guild where
  voice_states : List (Nat × VoiceState)
deriving DecidableEq, Repr

/-- A cached channel: the name the source reads from ctx.cache. -/
structure CacheChannel where
  name : String
deriving DecidableEq, Repr

/-- The immutable environment: the serenity context's guild cache and channel
cache, plus the outcome the HTTP edit_channel call would have for a channel. -/
structure Ctx where
  guilds : List (Nat × Guild)
  cacheChannels : List (Nat × CacheChannel)
  editResult : Nat → Bool

/-- Association-list lookup, the model of HashMap::get. -/
def lookupA {β : Type} : List (Nat × β) → Nat → Option β
  | [], _ => none
  | (k, v) :: rest, key => if k = key then some v else lookupA rest key

/-- Association-list insert, the model of HashMap::insert. -/
def eraseA {β : Type} : List (Nat × β) → Nat → List (Nat × β)
  | [], _ => []
  | (k, v) :: rest, key =>
    if k = key then eraseA rest key else (k, v) :: eraseA rest key

def insertA {β : Type} (l : List (Nat × β)) (key : Nat) (v : β) :
    List (Nat × β) :=
  (key, v) :: eraseA l key

/-- Update the entry with the given key in place, the model of HashMap::get_mut
followed by field assignments. -/
def updateA {β : Type} : List (Nat × β) → Nat → (β → β) → List (Nat × β)
  | [], _, _ => []
  | (k, v) :: rest, key, f =>
    if k = key then (k, f v) :: rest else (k, v) :: updateA rest key f

/-- DiscordTwitchWatcher::find_user_by_twitch_id_mut: the first user entry whose
twitch id matches, in iteration order of the users map. -/
def find_entry_by_twitch_id : List (Nat × User) → Nat → Option (Nat × User)
  | [], _ => none
  | (k, u) :: rest, tid =>
    if u.twitch_id = tid then some (k, u) else find_entry_by_twitch_id rest tid

def find_user_by_twitch_id (w : DiscordTwitchWatcher) (tid : Nat) :
    Option (Nat × User) :=
  find_entry_by_twitch_id w.users tid

/-- The in-place mutation performed through find_user_by_twitch_id_mut: update
the first user entry whose twitch id matches. -/
def update_user_by_twitch_id : List (Nat × User) → Nat → (User → User) →
    List (Nat × User)
  | [], _, _ => []
  | (k, u) :: rest, tid, f =>
    if u.twitch_id = tid then (k, f u) :: rest
    else (k, u) :: update_user_by_twitch_id rest tid f

/-- Modelled from the spec: the PresenceStore operation usersInRoom(roomId) used
for co-occupancy checks (DiscordTwitchWatcher::find_user_in_channel, whose
defining discord module file is not among the sources; only its call sites are).
It returns the monitored users whose known current channel is the given one. -/
def find_user_in_channel (w : DiscordTwitchWatcher) (cid : Nat) : List User :=
  (w.users.map Prod.snd).filter (fun u => u.current_channel_id = some cid)

/-- The fallback scan of find_current_user_voice_channel: walk the configured
servers and, for each one present in the guild cache whose voice states mention
the user, overwrite the result with that voice state channel id. -/
def scan_servers (ctx : Ctx) (w : DiscordTwitchWatcher) (u : User) : Option Nat :=
  w.servers.foldl
    (fun ret server =>
      match lookupA ctx.guilds server with
      | some guild =>
        match lookupA guild.voice_states u.discord_id with
        | some vs => vs.channel_id
        | none => ret
      | none => ret)
    none

/-- find_current_user_voice_channel: take the cached channel id when the user
has already been part of a voice state event, otherwise scan the guild caches;
when a channel id was found, memoize it by setting the flag and the cached id.
Returns the found channel id, the updated state, and whether the slow scan path
ran. -/
def find_current_user_voice_channel (ctx : Ctx) (w : DiscordTwitchWatcher)
    (discord_user_id : Nat) : Option Nat × DiscordTwitchWatcher × Bool :=
  let pre : Option Nat × Bool :=
    match lookupA w.users discord_user_id with
    | some user =>
      if user.has_been_part_of_voice_state_event then
        (user.current_channel_id, false)
      else
        (scan_servers ctx w user, true)
    | none => (none, false)
  match pre.1 with
  | some cid =>
    (some cid,
      { w with
        users := updateA w.users discord_user_id
          (fun u =>
            { u with
              has_been_part_of_voice_state_event := true
              current_channel_id := some cid }) },
      pre.2)
  | none => (none, w, pre.2)

/-- Result of get_channel_new_name: a pending channel edit and the updated
state, an anyhow error, or a panic (the unwrap of channels.remove). -/
inductive GetNameResult where
  | ok (edit : Option (Nat × String × String)) (w : DiscordTwitchWatcher)
  | error (msg : String)
  | panicked
deriving DecidableEq, Repr

/-- The channel_has_been_renamed local of get_channel_new_name: whether the
channel already has a RenamedRoom record. -/
def channel_has_been_renamed (w : DiscordTwitchWatcher) (channel_id : Nat) :
    Bool :=
  (lookupA w.channels channel_id).isSome

/-- get_channel_new_name: decide the rename/restore edit for the channel the
user occupies. Mirrors the source exactly: the co-occupancy guard counts the
streaming occupants of an already-renamed channel; a rename of an
already-renamed channel is a no-op; otherwise the channel name is read from
the cache (error if absent), then on rename the original name is recorded and
the configured live name returned, and on restore the record is removed —
unwrap panics when there is no record — and the recorded name returned. -/
def get_channel_new_name (ctx : Ctx) (w : DiscordTwitchWatcher)
    (discord_user_id : Nat) (channel_id : Nat) (is_streaming : Bool) :
    GetNameResult :=
  if 1 ≤ ((find_user_in_channel w channel_id).filter
      (fun f => (f.twitch_is_streaming.getD false)
        && channel_has_been_renamed w channel_id)).length
  then
    .ok none w
  else if is_streaming && channel_has_been_renamed w channel_id then
    .ok none w
  else
    match lookupA ctx.cacheChannels channel_id with
    | none => .error ("Channel " ++ toString channel_id ++ " does not exist")
    | some discord_channel =>
      if is_streaming then
        .ok (some (channel_id, w.renamed_channel_name,
            "User " ++ toString discord_user_id ++ " is streaming"))
          { w with
            channels := insertA w.channels channel_id
              { original_name := discord_channel.name } }
      else
        match lookupA w.channels channel_id with
        | none => .panicked
        | some to_restore =>
          .ok (some (channel_id, to_restore.original_name,
              "User " ++ toString discord_user_id ++ " has stopped his stream"))
            { w with channels := eraseA w.channels channel_id }

/-- Observable effects of the reconciler. -/
inductive BotAction where
  | editChannel (channel_id : Nat) (newName : String) (reason : String)
      (succeeded : Bool)
  | warnUnknownUser (twitch_id : Nat)
deriving DecidableEq, Repr

/-- Overall outcome of a handler: normal return, an anyhow error, or a panic. -/
inductive Outcome where
  | ok
  | error (msg : String)
  | panicked
deriving DecidableEq, Repr

/-- rename_channel: ask get_channel_new_name for the edit; when there is one,
issue the HTTP edit — a failure of which is only logged — and return Ok. -/
def rename_channel (ctx : Ctx) (w : DiscordTwitchWatcher)
    (discord_user_id : Nat) (channel_id : Nat) (is_streaming : Bool) :
    Outcome × DiscordTwitchWatcher × List BotAction :=
  match get_channel_new_name ctx w discord_user_id channel_id is_streaming with
  | .panicked => (.panicked, w, [])
  | .error e => (.error e, w, [])
  | .ok none w' => (.ok, w', [])
  | .ok (some (a, newName, reason)) w' =>
    (.ok, w', [.editChannel a newName reason (ctx.editResult a)])

/-- handle_stream_event: look the user up by twitch id; if the streaming status
is unchanged, return Ok doing nothing further; otherwise record the new status,
locate the voice channel of the user and run rename_channel on it; an unknown
twitch id logs a warning and returns an error. -/
def handle_stream_event (ctx : Ctx) (w : DiscordTwitchWatcher)
    (streamer_user_id : Nat) (is_streaming : Bool) :
    Outcome × DiscordTwitchWatcher × List BotAction :=
  match find_user_by_twitch_id w streamer_user_id with
  | some (_, u) =>
    if u.twitch_is_streaming = some is_streaming then
      (.ok, w, [])
    else
      let w1 : DiscordTwitchWatcher :=
        { w with
          users := update_user_by_twitch_id w.users streamer_user_id
            (fun v => { v with twitch_is_streaming := some is_streaming }) }
      let found := find_current_user_voice_channel ctx w1 u.discord_id
      match found.1 with
      | some channel_id =>
        rename_channel ctx found.2.1 u.discord_id channel_id is_streaming
      | none => (.ok, found.2.1, [])
  | none =>
    (.error ("Unknown twitch user id " ++ toString streamer_user_id), w,
      [.warnUnknownUser streamer_user_id])

/-- The message enum carried over the mpsc channel (inter_comm.rs). -/
inductive MessageType where
  | twitchStreamOnline
  | twitchStreamOffline
deriving DecidableEq, Repr

/-- The message struct carried over the mpsc channel (inter_comm.rs). Its
streamer_user_id is an arbitrary string. -/
structure InterComm where
  message_type : MessageType
  streamer_user_id : String
  streamer_user_login : String
deriving DecidableEq, Repr

/-- Rust u64 FromStr: an optional leading plus sign, then one or more ASCII
digits, rejecting the empty digit sequence, any other character, and values
that overflow 64 bits. -/
def parse_u64 (s : String) : Option Nat :=
  let ds :=
    match s.data with
    | '+' :: rest => rest
    | cs => cs
  if ds = [] then none
  else if ds.all (fun c => c.isDigit) then
    let v := ds.foldl (fun acc c => acc * 10 + (c.toNat - 48)) 0
    if v < 18446744073709551616 then some v else none
  else none

/-- One iteration of the queue consumer twitch_event_handler: parse the
streamer id of the received message with parse().unwrap() — a panic when the
string is not a valid u64 — and run handle_stream_event with the matching
streaming flag; an error from it is only logged and the loop continues. -/
def twitch_event_handler (ctx : Ctx) (w : DiscordTwitchWatcher)
    (item : InterComm) : Outcome × DiscordTwitchWatcher × List BotAction :=
  let step := fun (is_streaming : Bool) =>
    match parse_u64 item.streamer_user_id with
    | none => ((.panicked : Outcome), w, ([] : List BotAction))
    | some tid =>
      let out := handle_stream_event ctx w tid is_streaming
      match out.1 with
      | .panicked => (.panicked, out.2.1, out.2.2)
      | _ => (.ok, out.2.1, out.2.2)
  match item.message_type with
  | .twitchStreamOnline => step true
  | .twitchStreamOffline => step false

/-- The environment of the co-occupancy scenario: room 10 is in the channel
cache with its prior name; guild cache and edit outcomes are arbitrary. -/
def c5ctx (origName : String) (guilds : List (Nat × Guild)) (er : Nat → Bool) :
    Ctx :=
  ⟨guilds, [(10, ⟨origName⟩)], er⟩

/-- The initial state of the co-occupancy scenario: monitored users A
(discord id 1, twitch id 100) and B (discord id 2, twitch id 200), both known
through presence to occupy room 10, nobody live, no renamed room. -/
def c5w0 (liveName : String) (servers : List Nat) : DiscordTwitchWatcher :=
  ⟨[], [(1, ⟨1, some 10, true, 100, none⟩), (2, ⟨2, some 10, true, 200, none⟩)],
    liveName, servers⟩

/-- Step 1 of the scenario: A goes online. -/
def c5s1 (origName liveName : String) (guilds : List (Nat × Guild))
    (servers : List Nat) (er : Nat → Bool) :
    Outcome × DiscordTwitchWatcher × List BotAction :=
  handle_stream_event (c5ctx origName guilds er) (c5w0 liveName servers) 100 true

/-- Step 2: B goes online. -/
def c5s2 (origName liveName : String) (guilds : List (Nat × Guild))
    (servers : List Nat) (er : Nat → Bool) :
    Outcome × DiscordTwitchWatcher × List BotAction :=
  handle_stream_event (c5ctx origName guilds er)
    (c5s1 origName liveName guilds servers er).2.1 200 true

/-- Step 3: A goes offline. -/
def c5s3 (origName liveName : String) (guilds : List (Nat × Guild))
    (servers : List Nat) (er : Nat → Bool) :
    Outcome × DiscordTwitchWatcher × List BotAction :=
  handle_stream_event (c5ctx origName guilds er)
    (c5s2 origName liveName guilds servers er).2.1 100 false

/-- Step 4: B goes offline. -/
def c5s4 (origName liveName : String) (guilds : List (Nat × Guild))
    (servers : List Nat) (er : Nat → Bool) :
    Outcome × DiscordTwitchWatcher × List BotAction :=
  handle_stream_event (c5ctx origName guilds er)
    (c5s3 origName liveName guilds servers er).2.1 200 false

/-- Claim C5: two monitored users A and B share room 10, known through
presence. The sequence A online, B online, A offline, B offline produces
exactly two channel edits: the first renames room 10 to the configured live
name while recording its prior name, the second (B going offline) restores
that recorded name; the B-online and A-offline steps produce no edit and leave
the recorded RenamedRoom entry for room 10 unchanged. Stated for every prior
name, configured live name, guild cache, server list and edit outcome. -/
theorem C5_co_occupancy_mutual_exclusion (origName liveName : String)
    (guilds : List (Nat × Guild)) (servers : List Nat) (er : Nat → Bool) :
    (c5s1 origName liveName guilds servers er).2.2
      = [.editChannel 10 liveName ("User 1 is streaming") (er 10)]
    ∧ (c5s2 origName liveName guilds servers er).2.2 = []
    ∧ (c5s3 origName liveName guilds servers er).2.2 = []
    ∧ (c5s4 origName liveName guilds servers er).2.2
      = [.editChannel 10 origName ("User 2 has stopped his stream") (er 10)]
    ∧ lookupA (c5s1 origName liveName guilds servers er).2.1.channels 10
      = some { original_name := origName }
    ∧ lookupA (c5s2 origName liveName guilds servers er).2.1.channels 10
      = some { original_name := origName }
    ∧ lookupA (c5s3 origName liveName guilds servers er).2.1.channels 10
      = some { original_name := origName }
    ∧ lookupA (c5s4 origName liveName guilds servers er).2.1.channels 10
      = none := by
  have h1 : c5s1 origName liveName guilds servers er
      = (.ok,
          ⟨[(10, ⟨origName⟩)],
            [(1, ⟨1, some 10, true, 100, some true⟩),
              (2, ⟨2, some 10, true, 200, none⟩)], liveName, servers⟩,
          [.editChannel 10 liveName ("User 1 is streaming") (er 10)]) := rfl
  have h2 : c5s2 origName liveName guilds servers er
      = (.ok,
          ⟨[(10, ⟨origName⟩)],
            [(1, ⟨1, some 10, true, 100, some true⟩),
              (2, ⟨2, some 10, true, 200, some true⟩)], liveName, servers⟩,
          []) := by
    show handle_stream_event (c5ctx origName guilds er)
      (c5s1 origName liveName guilds servers er).2.1 200 true = _
    rw [h1]
    rfl
  have h3 : c5s3 origName liveName guilds servers er
      = (.ok,
          ⟨[(10, ⟨origName⟩)],
            [(1, ⟨1, some 10, true, 100, some false⟩),
              (2, ⟨2, some 10, true, 200, some true⟩)], liveName, servers⟩,
          []) := by
    show handle_stream_event (c5ctx origName guilds er)
      (c5s2 origName liveName guilds servers er).2.1 100 false = _
    rw [h2]
    rfl
  have h4 : c5s4 origName liveName guilds servers er
      = (.ok,
          ⟨[],
            [(1, ⟨1, some 10, true, 100, some false⟩),
              (2, ⟨2, some 10, true, 200, some false⟩)], liveName, servers⟩,
          [.editChannel 10 origName
            ("User 2 has stopped his stream") (er 10)]) := by
    show handle_stream_event (c5ctx origName guilds er)
      (c5s3 origName liveName guilds servers er).2.1 200 false = _
    rw [h3]
    rfl
  rw [h1, h2, h3, h4]
  exact ⟨rfl, rfl, rfl, rfl, rfl, rfl, rfl, rfl⟩

/-- Claim C6 (the code panics here): a restore decision for a room that has no
RenamedRoom record and no other live occupant reaches the unwrap of
channels.remove and panics rather than being a no-op: concretely, user 1
(not marked live) occupies room 10, which is present in the channel cache and
has no record. -/
theorem C6_restore_without_record_panics :
    get_channel_new_name
      { guilds := [], cacheChannels := [(10, { name := "general" })],
        editResult := fun _ => true }
      { channels := [],
        users := [(1, ⟨1, some 10, true, 100, some false⟩)],
        renamed_channel_name := "LIVE", servers := [] }
      1 10 false
      = GetNameResult.panicked := by
  rfl

/-- Claim C8: a status message whose parsed streamer id matches no monitored
user leaves the whole watcher state untouched, issues no channel edit, logs the
unknown-user warning, and the consumer returns normally (the error from
handle_stream_event is only logged). -/
theorem C8_unknown_user_safety (ctx : Ctx) (w : DiscordTwitchWatcher)
    (item : InterComm) (tid : Nat)
    (hparse : parse_u64 item.streamer_user_id = some tid)
    (hunknown : find_user_by_twitch_id w tid = none) :
    twitch_event_handler ctx w item = (.ok, w, [.warnUnknownUser tid]) := by
  have hh : ∀ b, handle_stream_event ctx w tid b
      = (.error ("Unknown twitch user id " ++ toString tid), w,
          [.warnUnknownUser tid]) := by
    intro b
    unfold handle_stream_event
    rw [hunknown]
  cases item with
  | mk mt sid login =>
    cases mt <;>
      simp only [twitch_event_handler, hparse, hh]

/-- Witness for C8: an online message for twitch id 999 against a store with a
single monitored user of twitch id 100. -/
theorem C8_unknown_user_safety_witness :
    (parse_u64 "999" = some 999
      ∧ find_user_by_twitch_id
          { channels := [],
            users := [(1, ⟨1, none, false, 100, none⟩)],
            renamed_channel_name := "LIVE", servers := [] } 999 = none)
    ∧ twitch_event_handler
        { guilds := [], cacheChannels := [], editResult := fun _ => true }
        { channels := [],
          users := [(1, ⟨1, none, false, 100, none⟩)],
          renamed_channel_name := "LIVE", servers := [] }
        { message_type := .twitchStreamOnline, streamer_user_id := "999",
          streamer_user_login := "somebody" }
        = (.ok,
            { channels := [],
              users := [(1, ⟨1, none, false, 100, none⟩)],
              renamed_channel_name := "LIVE", servers := [] },
            [.warnUnknownUser 999]) :=
  ⟨⟨by decide, by decide⟩,
    C8_unknown_user_safety _ _ _ 999 (by decide) (by decide)⟩

/-- Claim C10: the queue consumer parses the streamer_user_id of each message
with parse().unwrap(), so a message whose streamer_user_id is not a valid
decimal u64 string panics the consumer task instead of producing an error,
although the InterComm struct allows any string there. -/
theorem C10_bad_streamer_id_panics (ctx : Ctx) (w : DiscordTwitchWatcher)
    (item : InterComm) (hbad : parse_u64 item.streamer_user_id = none) :
    twitch_event_handler ctx w item = (.panicked, w, []) := by
  cases item with
  | mk mt sid login =>
    cases mt <;> simp only [twitch_event_handler, hbad]

/-- Witness for C10: the non-numeric streamer id string abc panics. -/
theorem C10_bad_streamer_id_panics_witness :
    parse_u64 "abc" = none
    ∧ twitch_event_handler
        { guilds := [], cacheChannels := [], editResult := fun _ => true }
        { channels := [], users := [], renamed_channel_name := "LIVE",
          servers := [] }
        { message_type := .twitchStreamOnline, streamer_user_id := "abc",
          streamer_user_login := "somebody" }
        = (.panicked,
            { channels := [], users := [], renamed_channel_name := "LIVE",
              servers := [] },
            []) :=
  ⟨by decide, C10_bad_streamer_id_panics _ _ _ (by decide)⟩

theorem lookupA_updateA {β : Type} :
    ∀ (l : List (Nat × β)) (k : Nat) (f : β → β),
      lookupA (updateA l k f) k = (lookupA l k).map f := by
  intro l
  induction l with
  | nil => intro k f; rfl
  | cons e rest ih =>
    intro k f
    obtain ⟨k0, v⟩ := e
    by_cases hk : k0 = k
    · simp [updateA, lookupA, hk]
    · simp [updateA, lookupA, hk, ih]

theorem updateA_self {β : Type} :
    ∀ (l : List (Nat × β)) (k : Nat) (f : β → β) (v : β),
      lookupA l k = some v → f v = v → updateA l k f = l := by
  intro l
  induction l with
  | nil => intro k f v h _; cases h
  | cons e rest ih =>
    intro k f v h hf
    obtain ⟨k0, v0⟩ := e
    by_cases hk : k0 = k
    · simp only [lookupA, if_pos hk] at h
      injection h with h
      subst h
      simp [updateA, hk, hf]
    · simp only [lookupA, if_neg hk] at h
      simp [updateA, hk, ih k f v h hf]

theorem lookupA_insertA {β : Type} (l : List (Nat × β)) (k : Nat) (v : β) :
    lookupA (insertA l k v) k = some v := by
  simp [insertA, lookupA]

theorem lookupA_eraseA {β : Type} :
    ∀ (l : List (Nat × β)) (k : Nat), lookupA (eraseA l k) k = none := by
  intro l
  induction l with
  | nil => intro k; rfl
  | cons e rest ih =>
    intro k
    obtain ⟨k0, v⟩ := e
    by_cases hk : k0 = k
    · simp [eraseA, hk, ih]
    · simp [eraseA, lookupA, hk, ih]

theorem find_entry_update {f : User → User}
    (hid : ∀ v, (f v).twitch_id = v.twitch_id) :
    ∀ (us : List (Nat × User)) (tid : Nat),
      find_entry_by_twitch_id (update_user_by_twitch_id us tid f) tid
        = (find_entry_by_twitch_id us tid).map (fun e => (e.1, f e.2)) := by
  intro us
  induction us with
  | nil => intro tid; rfl
  | cons e rest ih =>
    intro tid
    obtain ⟨k, u⟩ := e
    by_cases ht : u.twitch_id = tid
    · simp [update_user_by_twitch_id, find_entry_by_twitch_id, ht, hid]
    · simp only [update_user_by_twitch_id, if_neg ht, find_entry_by_twitch_id]
      exact ih tid

theorem find_entry_updateA_streaming {g : User → User}
    (hid : ∀ v, (g v).twitch_id = v.twitch_id)
    (hstr : ∀ v, (g v).twitch_is_streaming = v.twitch_is_streaming) :
    ∀ (us : List (Nat × User)) (k tid : Nat),
      (find_entry_by_twitch_id (updateA us k g) tid).map
          (fun e => e.2.twitch_is_streaming)
        = (find_entry_by_twitch_id us tid).map
            (fun e => e.2.twitch_is_streaming) := by
  intro us
  induction us with
  | nil => intro k tid; rfl
  | cons e rest ih =>
    intro k tid
    obtain ⟨k0, v⟩ := e
    by_cases hk : k0 = k
    · by_cases ht : v.twitch_id = tid
      · simp [updateA, hk, find_entry_by_twitch_id, hid, ht, hstr]
      · simp [updateA, hk, find_entry_by_twitch_id, hid, ht]
    · by_cases ht : v.twitch_id = tid
      · simp [updateA, hk, find_entry_by_twitch_id, ht]
      · simp [updateA, hk, find_entry_by_twitch_id, ht, ih]

theorem get_users_all (ctx : Ctx) (w : DiscordTwitchWatcher) (uid cid : Nat)
    (b : Bool) :
    match get_channel_new_name ctx w uid cid b with
    | .ok _ w' => w'.users = w.users
        ∧ w'.renamed_channel_name = w.renamed_channel_name
        ∧ w'.servers = w.servers
    | _ => True := by
  unfold get_channel_new_name
  by_cases hg1 : 1 ≤ ((find_user_in_channel w cid).filter
      (fun f => (f.twitch_is_streaming.getD false)
        && channel_has_been_renamed w cid)).length
  · rw [if_pos hg1]
    exact ⟨rfl, rfl, rfl⟩
  · rw [if_neg hg1]
    by_cases hg2 : (b && channel_has_been_renamed w cid) = true
    · rw [if_pos hg2]
      exact ⟨rfl, rfl, rfl⟩
    · rw [if_neg hg2]
      cases hc : lookupA ctx.cacheChannels cid with
      | none => trivial
      | some dc =>
        dsimp only
        by_cases hb : b = true
        · rw [if_pos hb]
          exact ⟨rfl, rfl, rfl⟩
        · rw [if_neg hb]
          cases hr : lookupA w.channels cid with
          | none => trivial
          | some ch => exact ⟨rfl, rfl, rfl⟩

theorem get_ok_users {ctx : Ctx} {w : DiscordTwitchWatcher} {uid cid : Nat}
    {b : Bool} {e : Option (Nat × String × String)} {w' : DiscordTwitchWatcher}
    (h : get_channel_new_name ctx w uid cid b = .ok e w') :
    w'.users = w.users ∧ w'.renamed_channel_name = w.renamed_channel_name
      ∧ w'.servers = w.servers := by
  have hall := get_users_all ctx w uid cid b
  rw [h] at hall
  exact hall

theorem rename_users_eq (ctx : Ctx) (w : DiscordTwitchWatcher)
    (uid cid : Nat) (b : Bool) :
    (rename_channel ctx w uid cid b).2.1.users = w.users := by
  unfold rename_channel
  cases hg : get_channel_new_name ctx w uid cid b with
  | panicked => rfl
  | error e => rfl
  | ok edit w' =>
    have hu := (get_ok_users hg).1
    cases edit with
    | none => exact hu
    | some t =>
      obtain ⟨a, nm, rs⟩ := t
      exact hu

theorem rename_actions_len (ctx : Ctx) (w : DiscordTwitchWatcher)
    (uid cid : Nat) (b : Bool) :
    (rename_channel ctx w uid cid b).2.2.length ≤ 1 := by
  unfold rename_channel
  cases hg : get_channel_new_name ctx w uid cid b with
  | panicked => simp
  | error e => simp
  | ok edit w' =>
    cases edit with
    | none => simp
    | some t =>
      obtain ⟨a, nm, rs⟩ := t
      simp

theorem handle_actions_len (ctx : Ctx) (w : DiscordTwitchWatcher)
    (tid : Nat) (b : Bool) :
    (handle_stream_event ctx w tid b).2.2.length ≤ 1 := by
  unfold handle_stream_event
  cases hf : find_user_by_twitch_id w tid with
  | none => simp
  | some e =>
    obtain ⟨k, u⟩ := e
    by_cases hs : u.twitch_is_streaming = some b
    · simp [hs]
    · simp only [hs, if_neg, if_false]
      split
      · apply rename_actions_len
      · simp

theorem handle_users_streaming (ctx : Ctx) (w : DiscordTwitchWatcher)
    (tid : Nat) (b : Bool) (k : Nat) (u : User)
    (hfind : find_user_by_twitch_id w tid = some (k, u)) :
    ∃ k' u',
      find_user_by_twitch_id (handle_stream_event ctx w tid b).2.1 tid
        = some (k', u')
      ∧ u'.twitch_is_streaming = some b := by
  unfold handle_stream_event
  rw [hfind]
  by_cases hs : u.twitch_is_streaming = some b
  · simp only [hs, if_pos]
    exact ⟨k, u, hfind, hs⟩
  · simp only [hs, if_neg, if_false]
    set f : User → User :=
      fun v => { v with twitch_is_streaming := some b } with hfdef
    have hid : ∀ v, (f v).twitch_id = v.twitch_id := fun v => rfl
    set w1 : DiscordTwitchWatcher :=
      { w with users := update_user_by_twitch_id w.users tid f } with hw1
    have hfind1 : find_user_by_twitch_id w1 tid = some (k, f u) := by
      show find_entry_by_twitch_id (update_user_by_twitch_id w.users tid f) tid
        = some (k, f u)
      rw [find_entry_update hid w.users tid]
      show (find_user_by_twitch_id w tid).map (fun e => (e.1, f e.2))
        = some (k, f u)
      rw [hfind]
      rfl
    set g : User → User :=
      fun v => { v with
        has_been_part_of_voice_state_event := true
        current_channel_id :=
          (find_current_user_voice_channel ctx w1 u.discord_id).1 } with hgdef
    have hstreq : ∀ (w2 : DiscordTwitchWatcher),
        w2.users = (find_current_user_voice_channel ctx w1 u.discord_id).2.1.users →
        ∃ k' u', find_user_by_twitch_id w2 tid = some (k', u')
          ∧ u'.twitch_is_streaming = some b := by
      intro w2 husers
      have hcases :
          (find_current_user_voice_channel ctx w1 u.discord_id).2.1.users
              = w1.users
          ∨ ∃ h : Nat → Option Nat,
              (find_current_user_voice_channel ctx w1 u.discord_id).2.1.users
                = updateA w1.users u.discord_id
                  (fun v => { v with
                    has_been_part_of_voice_state_event := true
                    current_channel_id := h u.discord_id }) := by
        unfold find_current_user_voice_channel
        cases hlu : lookupA w1.users u.discord_id with
        | none => left; rfl
        | some user =>
          by_cases hobs : user.has_been_part_of_voice_state_event = true
          · simp only [hobs, if_pos]
            cases hcc : user.current_channel_id with
            | none => left; rfl
            | some c =>
              right
              exact ⟨fun _ => some c, rfl⟩
          · simp only [hobs, if_neg, if_false]
            cases hsc : scan_servers ctx w1 user with
            | none => left; rfl
            | some c =>
              right
              exact ⟨fun _ => some c, rfl⟩
      rcases hcases with hcan | ⟨hfun, hcan⟩
      · refine ⟨k, f u, ?_, rfl⟩
        show find_entry_by_twitch_id w2.users tid = some (k, f u)
        rw [husers, hcan]
        exact hfind1
      · have hmapped := find_entry_updateA_streaming
          (g := fun v => { v with
            has_been_part_of_voice_state_event := true
            current_channel_id := hfun u.discord_id })
          (fun v => rfl) (fun v => rfl) w1.users u.discord_id tid
        have : (find_entry_by_twitch_id w2.users tid).map
            (fun e => e.2.twitch_is_streaming)
            = (find_entry_by_twitch_id w1.users tid).map
                (fun e => e.2.twitch_is_streaming) := by
          rw [husers, hcan]
          exact hmapped
        rw [show find_entry_by_twitch_id w1.users tid = some (k, f u) from hfind1]
          at this
        cases hfe : find_entry_by_twitch_id w2.users tid with
        | none => rw [hfe] at this; cases this
        | some e' =>
          rw [hfe] at this
          refine ⟨e'.1, e'.2, ?_, ?_⟩
          · show find_entry_by_twitch_id w2.users tid = some (e'.1, e'.2)
            rw [hfe]
          · have : e'.2.twitch_is_streaming = (f u).twitch_is_streaming := by
              injection this
            rw [this]
    split
    · apply hstreq
      apply rename_users_eq
    · apply hstreq
      rfl

/-- The number of channel-edit calls among the actions of a handler run. -/
def countEdits (l : List BotAction) : Nat :=
  (l.filter (fun a =>
    match a with
    | .editChannel _ _ _ _ => true
    | _ => false)).length

/-- Claim C2: delivering the online status twice in a row for a monitored user
yields exactly one rename in total. For an already-live user the handler finds
the flag unchanged and returns at once with no mutation and no edit; after any
first online delivery the user is marked live, so the second delivery is such a
no-op, the total edits of the two deliveries equal those of the first, and the
first performs at most one edit. -/
theorem C2_online_idempotent (ctx : Ctx) (w : DiscordTwitchWatcher)
    (tid k : Nat) (u : User)
    (hfind : find_user_by_twitch_id w tid = some (k, u)) :
    (u.twitch_is_streaming = some true →
      handle_stream_event ctx w tid true = (.ok, w, []))
    ∧ handle_stream_event ctx (handle_stream_event ctx w tid true).2.1 tid true
        = (.ok, (handle_stream_event ctx w tid true).2.1, [])
    ∧ countEdits ((handle_stream_event ctx w tid true).2.2
          ++ (handle_stream_event ctx
              (handle_stream_event ctx w tid true).2.1 tid true).2.2)
        = countEdits (handle_stream_event ctx w tid true).2.2
    ∧ countEdits (handle_stream_event ctx w tid true).2.2 ≤ 1 := by
  have hfirst : ∀ (w2 : DiscordTwitchWatcher) (k' : Nat) (u' : User),
      find_user_by_twitch_id w2 tid = some (k', u') →
      u'.twitch_is_streaming = some true →
      handle_stream_event ctx w2 tid true = (.ok, w2, []) := by
    intro w2 k' u' hf hs
    unfold handle_stream_event
    rw [hf]
    dsimp only
    rw [if_pos hs]
  obtain ⟨k', u', hf', hs'⟩ := handle_users_streaming ctx w tid true k u hfind
  have hsecond := hfirst _ k' u' hf' hs'
  refine ⟨fun hs => hfirst w k u hfind hs, hsecond, ?_, ?_⟩
  · rw [hsecond]
    simp [countEdits]
  · calc countEdits (handle_stream_event ctx w tid true).2.2
        ≤ (handle_stream_event ctx w tid true).2.2.length :=
          List.length_filter_le _ _
    _ ≤ 1 := handle_actions_len ctx w tid true

/-- Witness for C2: a monitored user with twitch id 100 not currently live and
not in any voice channel; the double online delivery is evaluated through the
theorem. -/
theorem C2_online_idempotent_witness :
    find_user_by_twitch_id
        { channels := [], users := [(1, ⟨1, none, false, 100, some false⟩)],
          renamed_channel_name := "LIVE", servers := [] } 100
      = some (1, ⟨1, none, false, 100, some false⟩)
    ∧ ((⟨1, none, false, 100, some false⟩ : User).twitch_is_streaming = some true →
        handle_stream_event
          { guilds := [], cacheChannels := [], editResult := fun _ => true }
          { channels := [], users := [(1, ⟨1, none, false, 100, some false⟩)],
            renamed_channel_name := "LIVE", servers := [] } 100 true
          = (.ok,
              { channels := [], users := [(1, ⟨1, none, false, 100, some false⟩)],
                renamed_channel_name := "LIVE", servers := [] }, []))
    ∧ handle_stream_event
        { guilds := [], cacheChannels := [], editResult := fun _ => true }
        (handle_stream_event
          { guilds := [], cacheChannels := [], editResult := fun _ => true }
          { channels := [], users := [(1, ⟨1, none, false, 100, some false⟩)],
            renamed_channel_name := "LIVE", servers := [] } 100 true).2.1 100 true
        = (.ok,
            (handle_stream_event
              { guilds := [], cacheChannels := [], editResult := fun _ => true }
              { channels := [], users := [(1, ⟨1, none, false, 100, some false⟩)],
                renamed_channel_name := "LIVE", servers := [] } 100 true).2.1, [])
    ∧ countEdits ((handle_stream_event
          { guilds := [], cacheChannels := [], editResult := fun _ => true }
          { channels := [], users := [(1, ⟨1, none, false, 100, some false⟩)],
            renamed_channel_name := "LIVE", servers := [] } 100 true).2.2
        ++ (handle_stream_event
            { guilds := [], cacheChannels := [], editResult := fun _ => true }
            (handle_stream_event
              { guilds := [], cacheChannels := [], editResult := fun _ => true }
              { channels := [], users := [(1, ⟨1, none, false, 100, some false⟩)],
                renamed_channel_name := "LIVE", servers := [] } 100 true).2.1
            100 true).2.2)
        = countEdits (handle_stream_event
            { guilds := [], cacheChannels := [], editResult := fun _ => true }
            { channels := [], users := [(1, ⟨1, none, false, 100, some false⟩)],
              renamed_channel_name := "LIVE", servers := [] } 100 true).2.2
    ∧ countEdits (handle_stream_event
          { guilds := [], cacheChannels := [], editResult := fun _ => true }
          { channels := [], users := [(1, ⟨1, none, false, 100, some false⟩)],
            renamed_channel_name := "LIVE", servers := [] } 100 true).2.2 ≤ 1 :=
  ⟨by decide,
    C2_online_idempotent
      { guilds := [], cacheChannels := [], editResult := fun _ => true }
      { channels := [], users := [(1, ⟨1, none, false, 100, some false⟩)],
        renamed_channel_name := "LIVE", servers := [] }
      100 1 ⟨1, none, false, 100, some false⟩ (by decide)⟩

theorem find_current_cached (ctx : Ctx) (w2 : DiscordTwitchWatcher)
    (uid cid : Nat) (u' : User)
    (hu : lookupA w2.users uid = some u')
    (hobs : u'.has_been_part_of_voice_state_event = true)
    (hcc : u'.current_channel_id = some cid) :
    find_current_user_voice_channel ctx w2 uid = (some cid, w2, false) := by
  have hfix : (fun v => { v with
      has_been_part_of_voice_state_event := true
      current_channel_id := some cid }) u' = u' := by
    cases u'
    simp only [User.mk.injEq] at hobs hcc ⊢
    simp_all
  unfold find_current_user_voice_channel
  rw [hu]
  dsimp only
  rw [if_pos hobs, hcc]
  dsimp only
  rw [updateA_self w2.users uid _ u' hu hfix]

/-- Claim C9: room discovery. With the memoization flag set, discovery returns
the cached room id on the fast path with no scan; whenever discovery returns a
room id, the updated state has the flag set and that id cached for the user; in
consequence a repeated discovery call takes the cached path, returning the same
id with no scan and no state change. -/
theorem C9_discovery_memoization (ctx : Ctx) (w : DiscordTwitchWatcher)
    (uid : Nat) (u : User) (hu : lookupA w.users uid = some u) :
    (u.has_been_part_of_voice_state_event = true →
      (find_current_user_voice_channel ctx w uid).1 = u.current_channel_id
      ∧ (find_current_user_voice_channel ctx w uid).2.2 = false)
    ∧ (∀ cid, (find_current_user_voice_channel ctx w uid).1 = some cid →
        lookupA (find_current_user_voice_channel ctx w uid).2.1.users uid
          = some { u with
              has_been_part_of_voice_state_event := true
              current_channel_id := some cid })
    ∧ (∀ cid, (find_current_user_voice_channel ctx w uid).1 = some cid →
        find_current_user_voice_channel ctx
            (find_current_user_voice_channel ctx w uid).2.1 uid
          = (some cid, (find_current_user_voice_channel ctx w uid).2.1,
              false)) := by
  have hB : ∀ cid, (find_current_user_voice_channel ctx w uid).1 = some cid →
      lookupA (find_current_user_voice_channel ctx w uid).2.1.users uid
        = some { u with
            has_been_part_of_voice_state_event := true
            current_channel_id := some cid } := by
    intro cid hcid
    unfold find_current_user_voice_channel at hcid ⊢
    rw [hu] at hcid ⊢
    dsimp only at hcid ⊢
    by_cases hobs : u.has_been_part_of_voice_state_event = true
    · rw [if_pos hobs] at hcid ⊢
      cases hcc : u.current_channel_id with
      | none =>
        rw [hcc] at hcid
        dsimp only at hcid
        cases hcid
      | some c =>
        rw [hcc] at hcid
        dsimp only at hcid ⊢
        injection hcid with hc
        subst hc
        rw [lookupA_updateA, hu]
        rfl
    · rw [if_neg hobs] at hcid ⊢
      cases hsc : scan_servers ctx w u with
      | none =>
        rw [hsc] at hcid
        dsimp only at hcid
        cases hcid
      | some c =>
        rw [hsc] at hcid
        dsimp only at hcid ⊢
        injection hcid with hc
        subst hc
        rw [lookupA_updateA, hu]
        rfl
  refine ⟨?_, hB, ?_⟩
  · intro hobs
    unfold find_current_user_voice_channel
    rw [hu]
    dsimp only
    rw [if_pos hobs]
    cases hcc : u.current_channel_id with
    | none => exact ⟨rfl, rfl⟩
    | some c => exact ⟨rfl, rfl⟩
  · intro cid hcid
    exact find_current_cached ctx _ uid cid _ (hB cid hcid) rfl rfl

/-- Witness for C9: a user known through presence to sit in room 10; the
discovery calls are evaluated through the theorem. -/
theorem C9_discovery_memoization_witness :
    lookupA
        ({ channels := [], users := [(1, ⟨1, some 10, true, 100, none⟩)],
           renamed_channel_name := "LIVE", servers := [] }
          : DiscordTwitchWatcher).users 1
      = some ⟨1, some 10, true, 100, none⟩
    ∧ (((⟨1, some 10, true, 100, none⟩ : User).has_been_part_of_voice_state_event
          = true →
        (find_current_user_voice_channel
            { guilds := [], cacheChannels := [], editResult := fun _ => true }
            { channels := [], users := [(1, ⟨1, some 10, true, 100, none⟩)],
              renamed_channel_name := "LIVE", servers := [] } 1).1
          = (⟨1, some 10, true, 100, none⟩ : User).current_channel_id
        ∧ (find_current_user_voice_channel
            { guilds := [], cacheChannels := [], editResult := fun _ => true }
            { channels := [], users := [(1, ⟨1, some 10, true, 100, none⟩)],
              renamed_channel_name := "LIVE", servers := [] } 1).2.2 = false)
      ∧ (∀ cid, (find_current_user_voice_channel
            { guilds := [], cacheChannels := [], editResult := fun _ => true }
            { channels := [], users := [(1, ⟨1, some 10, true, 100, none⟩)],
              renamed_channel_name := "LIVE", servers := [] } 1).1 = some cid →
          lookupA (find_current_user_voice_channel
              { guilds := [], cacheChannels := [], editResult := fun _ => true }
              { channels := [], users := [(1, ⟨1, some 10, true, 100, none⟩)],
                renamed_channel_name := "LIVE", servers := [] } 1).2.1.users 1
            = some { (⟨1, some 10, true, 100, none⟩ : User) with
                has_been_part_of_voice_state_event := true
                current_channel_id := some cid })
      ∧ (∀ cid, (find_current_user_voice_channel
            { guilds := [], cacheChannels := [], editResult := fun _ => true }
            { channels := [], users := [(1, ⟨1, some 10, true, 100, none⟩)],
              renamed_channel_name := "LIVE", servers := [] } 1).1 = some cid →
          find_current_user_voice_channel
              { guilds := [], cacheChannels := [], editResult := fun _ => true }
              (find_current_user_voice_channel
                { guilds := [], cacheChannels := [], editResult := fun _ => true }
                { channels := [], users := [(1, ⟨1, some 10, true, 100, none⟩)],
                  renamed_channel_name := "LIVE", servers := [] } 1).2.1 1
            = (some cid,
                (find_current_user_voice_channel
                  { guilds := [], cacheChannels := [], editResult := fun _ => true }
                  { channels := [], users := [(1, ⟨1, some 10, true, 100, none⟩)],
                    renamed_channel_name := "LIVE", servers := [] } 1).2.1,
                false))) :=
  ⟨by decide,
    C9_discovery_memoization
      { guilds := [], cacheChannels := [], editResult := fun _ => true }
      { channels := [], users := [(1, ⟨1, some 10, true, 100, none⟩)],
        renamed_channel_name := "LIVE", servers := [] }
      1 ⟨1, some 10, true, 100, none⟩ (by decide)⟩

theorem get_ok_some_channels {ctx : Ctx} {w : DiscordTwitchWatcher}
    {uid cid : Nat} {b : Bool} {a : Nat} {nm rs : String}
    {w' : DiscordTwitchWatcher}
    (h : get_channel_new_name ctx w uid cid b = .ok (some (a, nm, rs)) w') :
    (b = true → (lookupA w'.channels cid).isSome = true)
    ∧ (b = false → lookupA w'.channels cid = none) := by
  unfold get_channel_new_name at h
  by_cases hg1 : 1 ≤ ((find_user_in_channel w cid).filter
      (fun f => (f.twitch_is_streaming.getD false)
        && channel_has_been_renamed w cid)).length
  · rw [if_pos hg1] at h
    exact absurd h (by simp)
  · rw [if_neg hg1] at h
    by_cases hg2 : (b && channel_has_been_renamed w cid) = true
    · rw [if_pos hg2] at h
      exact absurd h (by simp)
    · rw [if_neg hg2] at h
      cases hc : lookupA ctx.cacheChannels cid with
      | none =>
        rw [hc] at h
        exact absurd h (by simp)
      | some dc =>
        rw [hc] at h
        dsimp only at h
        by_cases hb : b = true
        · rw [if_pos hb] at h
          injection h with h1 h2
          subst h2
          refine ⟨fun _ => ?_, fun hf => ?_⟩
          · show (lookupA (insertA w.channels cid
              { original_name := dc.name }) cid).isSome = true
            rw [lookupA_insertA]
            rfl
          · rw [hb] at hf
            cases hf
        · rw [if_neg hb] at h
          cases hr : lookupA w.channels cid with
          | none =>
            rw [hr] at h
            exact absurd h (by simp)
          | some ch =>
            rw [hr] at h
            injection h with h1 h2
            subst h2
            refine ⟨fun ht => ?_, fun _ => ?_⟩
            · exact absurd ht hb
            · show lookupA (eraseA w.channels cid) cid = none
              exact lookupA_eraseA w.channels cid

/-- Claim C7: when get_channel_new_name decides an edit, rename_channel issues
exactly one edit call and returns Ok whatever the outcome of the HTTP call,
with the same final state for every edit outcome; and that state holds the
bookkeeping of the attempted action — the RenamedRoom record present after a
rename, absent after a restore — with no rollback and no retry. -/
theorem C7_edit_failure_swallowed (guilds : List (Nat × Guild))
    (cc : List (Nat × CacheChannel)) (er : Nat → Bool)
    (w : DiscordTwitchWatcher) (uid cid : Nat) (b : Bool)
    (a : Nat) (nm rs : String) (w' : DiscordTwitchWatcher)
    (h : get_channel_new_name
        { guilds := guilds, cacheChannels := cc, editResult := er }
        w uid cid b
      = .ok (some (a, nm, rs)) w') :
    (∀ er' : Nat → Bool,
      rename_channel
          { guilds := guilds, cacheChannels := cc, editResult := er' }
          w uid cid b
        = (.ok, w', [.editChannel a nm rs (er' a)]))
    ∧ (b = true → (lookupA w'.channels cid).isSome = true)
    ∧ (b = false → lookupA w'.channels cid = none) := by
  have hget : ∀ er' : Nat → Bool,
      get_channel_new_name
          { guilds := guilds, cacheChannels := cc, editResult := er' }
          w uid cid b
        = .ok (some (a, nm, rs)) w' := by
    intro er'
    rw [show get_channel_new_name
          { guilds := guilds, cacheChannels := cc, editResult := er' }
          w uid cid b
        = get_channel_new_name
            { guilds := guilds, cacheChannels := cc, editResult := er }
            w uid cid b from rfl]
    exact h
  refine ⟨?_, (get_ok_some_channels h).1, (get_ok_some_channels h).2⟩
  intro er'
  unfold rename_channel
  rw [hget er']

/-- Witness for C7: a rename decision for room 10 (original name general,
configured live name LIVE) with the record absent; evaluated through the
theorem. -/
theorem C7_edit_failure_swallowed_witness :
    get_channel_new_name
        { guilds := [], cacheChannels := [(10, { name := "general" })],
          editResult := fun _ => true }
        { channels := [], users := [], renamed_channel_name := "LIVE",
          servers := [] } 1 10 true
      = .ok (some (10, "LIVE", "User 1 is streaming"))
          { channels := [(10, { original_name := "general" })], users := [],
            renamed_channel_name := "LIVE", servers := [] }
    ∧ ((∀ er' : Nat → Bool,
        rename_channel
            { guilds := [], cacheChannels := [(10, { name := "general" })],
              editResult := er' }
            { channels := [], users := [], renamed_channel_name := "LIVE",
              servers := [] } 1 10 true
          = (.ok,
              { channels := [(10, { original_name := "general" })], users := [],
                renamed_channel_name := "LIVE", servers := [] },
              [.editChannel 10 "LIVE" ("User 1 is streaming") (er' 10)]))
      ∧ (true = true →
          (lookupA
            ({ channels := [(10, { original_name := "general" })],
               users := [], renamed_channel_name := "LIVE", servers := [] }
              : DiscordTwitchWatcher).channels 10).isSome = true)
      ∧ (true = false →
          lookupA
            ({ channels := [(10, { original_name := "general" })],
               users := [], renamed_channel_name := "LIVE", servers := [] }
              : DiscordTwitchWatcher).channels 10 = none)) :=
  ⟨by rfl,
    C7_edit_failure_swallowed [] [(10, { name := "general" })]
      (fun _ => true)
      { channels := [], users := [], renamed_channel_name := "LIVE",
        servers := [] }
      1 10 true 10 "LIVE" "User 1 is streaming"
      { channels := [(10, { original_name := "general" })], users := [],
        renamed_channel_name := "LIVE", servers := [] }
      (by rfl)⟩
